import Mathlib

/-!
Verification of the Conversation Orchestration Engine of llama-cure.

The engine lives in `frontend/src/context/ChatContext.tsx`; the HTTP
payload shapes come from `frontend/src/services/api.ts`.  The React
provider keeps its state in `useState` hooks (`messages`,
`conversationId`, `isLoading`, `isMuted`, `audioPlaying`, plus one shared
`HTMLAudioElement`); every mutation of `messages` goes through
`setMessages` with a functional updater, so the provider is faithfully
embedded as explicit state passing over a `ChatState` record.

Async functions (`sendTextMessage`, `sendAudioMessage`,
`sendImageMessage`, `playTextAsAudio`) are split at their `await`
points: a `...Start` definition is the synchronous prefix up to and
including issuing the first network request, and a `...Resume`
definition is the continuation that runs when that request settles.
An atomic `...Run` definition composes the two for the serialized case
(no other user action interleaved with the turn).  Each network call a
run issues is recorded as an `ApiCall`, and each collaborator's reply is
an oracle parameter (`Except Unit _` — the code only distinguishes
"resolved with this payload" from "threw").

Two closure facts of the source matter and are modelled explicitly:
  * `playTextAsAudio` and the dispatch functions are re-created on every
    render and capture that render's `isMuted` / `conversationId` by
    value; state reads inside a suspended async function therefore see
    the value captured when the call started, not updates made while it
    was suspended.  The captured values are explicit parameters of the
    `Resume` definitions.
  * all `setMessages` / `setIsMuted` calls use functional updaters, so
    writes always apply to the latest state; they are modelled as direct
    state transformations.

Message ids in the source are the opaque unique strings
`msg_${Date.now()}_${random}` from `generateId`; they are modelled as
the values of the monotone counter `nextId`, which keeps exactly the
properties the code relies on (opacity, uniqueness, stability).  The
`timestamp` field is never read nor patched by any modelled operation
and is omitted.  The audio element is created once on mount; it is
modelled by its observable state, the loaded `src` and whether it is
playing (`audio.onplay` sets `audioPlaying := true`, `pause` resets it).
-/

namespace LlamaCure

/-- Message roles (`MessageRole` in ChatContext.tsx). -/
inductive MessageRole where
  | user
  | assistant
  | system
deriving DecidableEq, Repr

/-- The `Message` record of ChatContext.tsx.  `isLoading` is the
optional boolean that `addMessage` defaults to `false`; `audioLoading`
stays genuinely optional (`undefined` distinct from `false`) because
call sites sometimes omit it and sometimes pass a boolean. -/
structure Message where
  id : Nat
  role : MessageRole
  content : String
  isLoading : Bool
  imageUrl : Option String
  audioUrl : Option String
  audioLoading : Option Bool
deriving DecidableEq, Repr

/-- The `Partial<Message>` objects passed to `updateMessage`.  Only the
four fields below ever occur at a call site; `none` means the field is
absent from the partial object, so the merge keeps the old value.  The
`id`, `role`, `timestamp` and `imageUrl` fields are never supplied. -/
structure MessageUpdate where
  content : Option String
  isLoading : Option Bool
  audioUrl : Option String
  audioLoading : Option Bool
deriving DecidableEq, Repr

/-- The object-spread merge `{ ...msg, ...updates }` restricted to the
fields that occur in updates. -/
def applyUpdate (m : Message) (u : MessageUpdate) : Message :=
  { m with
    content := u.content.getD m.content
    isLoading := u.isLoading.getD m.isLoading
    audioUrl := match u.audioUrl with
      | some v => some v
      | none => m.audioUrl
    audioLoading := match u.audioLoading with
      | some v => some v
      | none => m.audioLoading }

/-- The provider's state: the `useState` hooks of `ChatProvider` plus
the observable state of the shared audio element (`audioSrc` is the
element's `src`, `audioPlaying` mirrors the hook kept in sync by the
`onplay` / `onended` / `onpause` listeners).  `nextId` models the id
generator. -/
structure ChatState where
  messages : List Message
  conversationId : Option String
  isLoading : Bool
  isMuted : Bool
  audioPlaying : Bool
  audioSrc : Option String
  nextId : Nat
deriving DecidableEq, Repr

/-- The state of a freshly mounted provider. -/
def initialState : ChatState :=
  { messages := []
    conversationId := none
    isLoading := false
    isMuted := false
    audioPlaying := false
    audioSrc := none
    nextId := 0 }

/-- `addMessage` from ChatContext.tsx: builds a message with a fresh id
and appends it; returns the new state together with the message the
source returns to its caller. -/
def addMessage (s : ChatState) (role : MessageRole) (content : String)
    (isLoading : Bool) (imageUrl audioUrl : Option String)
    (audioLoading : Option Bool) : ChatState × Message :=
  let m : Message :=
    { id := s.nextId, role, content, isLoading, imageUrl, audioUrl, audioLoading }
  ({ s with messages := s.messages ++ [m], nextId := s.nextId + 1 }, m)

/-- `updateMessage` from ChatContext.tsx: maps the merge over the list,
patching every message whose id matches. -/
def updateMessage (s : ChatState) (id : Nat) (u : MessageUpdate) : ChatState :=
  { s with
    messages := s.messages.map fun m => if m.id = id then applyUpdate m u else m }

/-- `stopAudio`: pauses the element (the `onpause` listener resets the
`audioPlaying` hook).  The element exists after mount, so the null
guard is always passed. -/
def stopAudio (s : ChatState) : ChatState :=
  { s with audioPlaying := false }

/-- `toggleMute`: flips the mute flag with a functional updater and, when
muting while the captured `audioPlaying` is set, stops playback. -/
def toggleMute (s : ChatState) : ChatState :=
  let newMuted := !s.isMuted
  if newMuted && s.audioPlaying then
    { stopAudio s with isMuted := newMuted }
  else
    { s with isMuted := newMuted }

/-- `clearConversation`: empties the log, resets the identity token and
stops playback. -/
def clearConversation (s : ChatState) : ChatState :=
  stopAudio { s with messages := [], conversationId := none }

/-! Collaborator payloads, from `services/api.ts`. -/

/-- Response of POST /api/chat/ (`ChatResponse` in api.ts). -/
structure ChatResponse where
  response : String
  conversation_id : String
deriving DecidableEq, Repr

/-- Response of POST /api/voice/transcribe (`TranscriptionResponse`). -/
structure TranscriptionResponse where
  transcription : String
deriving DecidableEq, Repr

/-- Response of POST /api/vision/analyze (`ImageAnalysisResponse`). -/
structure ImageAnalysisResponse where
  analysis : String
  conversation_id : String
deriving DecidableEq, Repr

/-- One outbound network request, with the fields the orchestration
engine controls.  Blobs are opaque to the engine and omitted; the fixed
payload that `chatService.sendMessage` merges in (`concise`,
`max_tokens`, `system_prompt`, `temperature`) is constant and omitted. -/
inductive ApiCall where
  | chat (message : String) (conversation_id : Option String)
  | transcribe
  | vision (prompt : String) (conversation_id : Option String)
  | synthesize (text : String)
deriving DecidableEq, Repr

/-- The guard `!text.trim()` of `sendTextMessage`: a string is falsy
exactly when empty, and `trim` yields the empty string exactly when
every character is whitespace, so the guard fires on blank
(empty-or-whitespace-only) input.  `Char.isWhitespace` covers the ASCII
whitespace JS trims; the exotic JS whitespace code points play no role
in any property here. -/
def isBlank (text : String) : Bool :=
  text.data.all Char.isWhitespace

/-- JavaScript truthiness on a nullable string: `null`, `undefined` and
the empty string are all falsy.  `sendImageMessage` passes
`conversationId || undefined` and `visionService.analyzeImage` appends
the field only under `if (conversation_id)`; both drop a falsy value. -/
def truthyString : Option String → Option String
  | some s => if s = "" then none else some s
  | none => none

/-! Fixed fallback texts, literal strings of ChatContext.tsx. -/

/-- Fallback appended when `sendTextMessage`'s try block throws. -/
def textErrorFallback : String :=
  "Sorry, I encountered an error processing your request. Please try again."

/-- Fallback appended when `sendAudioMessage`'s try block throws. -/
def audioErrorFallback : String :=
  "Sorry, I encountered an error processing your audio. Please try again."

/-- Fallback appended when `sendImageMessage`'s try block throws. -/
def imageErrorFallback : String :=
  "Sorry, I encountered an error analyzing your image. Please try again."

/-! `playTextAsAudio`, split at its single await (the synthesis call).
`capturedMuted` is the `isMuted` value the invocation's closure holds: the
value at the render that created the function, i.e. the one current when
the call chain started. -/

/-- Synchronous prefix of `playTextAsAudio`: the early return when the
captured mute flag is set (the element itself exists after mount),
otherwise marking the target message `audioLoading` and issuing the
synthesis request.  `none` means the function returned without any
request or state change. -/
def playTextAsAudioStart (capturedMuted : Bool) (text : String)
    (messageId : Option Nat) (s : ChatState) : Option (ChatState × ApiCall) :=
  if capturedMuted then none
  else
    let s1 := match messageId with
      | some id => updateMessage s id ⟨none, none, none, some true⟩
      | none => s
    some (s1, ApiCall.synthesize text)

/-- Continuation of `playTextAsAudio` once the synthesis call settles.
On success the message gets the audio url and leaves loading, and — the
mute re-check reads the same captured value — playback starts unless
`capturedMuted`; on failure (catch block) the message merely leaves the
loading state. -/
def playTextAsAudioResume (capturedMuted : Bool) (messageId : Option Nat)
    (synth : Except Unit String) (s : ChatState) : ChatState :=
  match synth with
  | .ok url =>
    let s1 := match messageId with
      | some id => updateMessage s id ⟨none, none, some url, some false⟩
      | none => s
    if capturedMuted then s1
    else { s1 with audioSrc := some url, audioPlaying := true }
  | .error _ =>
    match messageId with
    | some id => updateMessage s id ⟨none, none, none, some false⟩
    | none => s

/-- `playTextAsAudio` run without interleaved user actions, returning the
final state and the requests issued. -/
def playTextAsAudioRun (capturedMuted : Bool) (text : String)
    (messageId : Option Nat) (synth : Except Unit String)
    (s : ChatState) : ChatState × List ApiCall :=
  match playTextAsAudioStart capturedMuted text messageId s with
  | none => (s, [])
  | some (s1, c) => (playTextAsAudioResume capturedMuted messageId synth s1, [c])

/-! `sendTextMessage`. -/

/-- Synchronous prefix of `sendTextMessage`, up to the await on the
generation call: the blank-input guard, setting the busy flag, appending
the user message and the `Thinking...` placeholder, and issuing the chat
request with the dispatch-time `conversationId`.  `none` means the guard
rejected the input with no state change; otherwise the result carries
the placeholder's id. -/
def sendTextMessageStart (text : String) (s : ChatState) :
    Option (ChatState × Nat × ApiCall) :=
  if isBlank text then none
  else
    let s1 := { s with isLoading := true }
    let s2 := (addMessage s1 .user text false none none none).1
    let a3 := addMessage s2 .assistant "Thinking..." true none none (some false)
    some (a3.1, a3.2.id, ApiCall.chat text s.conversationId)

/-- Continuation of `sendTextMessage` once the chat call settles,
including the inlined `playTextAsAudio` chain — which runs in the same
render closure, so the mute flag it reads is the captured one.  On a
throw, the catch block appends a fresh fallback assistant message; the
finally block releases the busy flag on every path. -/
def sendTextMessageResume (capturedMuted : Bool) (loadingId : Nat)
    (gen : Except Unit ChatResponse) (synth : Except Unit String)
    (s : ChatState) : ChatState × List ApiCall :=
  match gen with
  | .ok resp =>
    let s1 := { s with conversationId := some resp.conversation_id }
    let s2 := updateMessage s1 loadingId ⟨some resp.response, some false, none, some true⟩
    let pr := playTextAsAudioRun capturedMuted resp.response (some loadingId) synth s2
    ({ pr.1 with isLoading := false }, pr.2)
  | .error _ =>
    let s1 := (addMessage s .assistant textErrorFallback false none none none).1
    ({ s1 with isLoading := false }, [])

/-- One `sendTextMessage` turn run to completion with no other user
action interleaved; returns the final state and the requests issued in
order. -/
def sendTextMessageRun (text : String) (gen : Except Unit ChatResponse)
    (synth : Except Unit String) (s : ChatState) : ChatState × List ApiCall :=
  match sendTextMessageStart text s with
  | none => (s, [])
  | some (s1, loadingId, c) =>
    let pr := sendTextMessageResume s.isMuted loadingId gen synth s1
    (pr.1, c :: pr.2)

/-! `sendAudioMessage`.  The blob is opaque; `audioUrl` stands for the
object URL `URL.createObjectURL(audioBlob)` attached to the user
message. -/

/-- Synchronous prefix of `sendAudioMessage`, up to the await on the
transcription call: no input guard at all — it sets the busy flag,
appends the `Audio message` user message and the `Transcribing audio...`
placeholder, and issues the transcription request.  Returns the ids of
the user message and of the placeholder. -/
def sendAudioMessageStart (audioUrl : String) (s : ChatState) :
    ChatState × Nat × Nat × ApiCall :=
  let s1 := { s with isLoading := true }
  let a2 := addMessage s1 .user "Audio message" false none (some audioUrl) none
  let a3 := addMessage a2.1 .assistant "Transcribing audio..." true none none none
  (a3.1, a2.2.id, a3.2.id, ApiCall.transcribe)

/-- Continuation of `sendAudioMessage` once the transcription call
settles.  On transcription success the user message's content becomes
the transcription — whatever it is, the empty string included — and the
chat request is issued with it and the dispatch-time captured
`conversationId`; from there the turn proceeds exactly like a text turn.
Any throw lands in the catch block, which appends a fresh fallback
assistant message; the finally block releases the busy flag. -/
def sendAudioMessageResume (capturedMuted : Bool) (capturedConv : Option String)
    (userId loadingId : Nat) (trans : Except Unit TranscriptionResponse)
    (gen : Except Unit ChatResponse) (synth : Except Unit String)
    (s : ChatState) : ChatState × List ApiCall :=
  match trans with
  | .error _ =>
    let s1 := (addMessage s .assistant audioErrorFallback false none none none).1
    ({ s1 with isLoading := false }, [])
  | .ok t =>
    let s1 := updateMessage s userId ⟨some t.transcription, none, none, none⟩
    match gen with
    | .ok resp =>
      let s2 := { s1 with conversationId := some resp.conversation_id }
      let s3 := updateMessage s2 loadingId
        ⟨some resp.response, some false, none, some true⟩
      let pr := playTextAsAudioRun capturedMuted resp.response (some loadingId) synth s3
      ({ pr.1 with isLoading := false },
        ApiCall.chat t.transcription capturedConv :: pr.2)
    | .error _ =>
      let s2 := (addMessage s1 .assistant audioErrorFallback false none none none).1
      ({ s2 with isLoading := false }, [ApiCall.chat t.transcription capturedConv])

/-- One `sendAudioMessage` turn run to completion with no other user
action interleaved. -/
def sendAudioMessageRun (audioUrl : String)
    (trans : Except Unit TranscriptionResponse) (gen : Except Unit ChatResponse)
    (synth : Except Unit String) (s : ChatState) : ChatState × List ApiCall :=
  let st := sendAudioMessageStart audioUrl s
  let pr := sendAudioMessageResume s.isMuted s.conversationId st.2.1 st.2.2.1
    trans gen synth st.1
  (pr.1, st.2.2.2 :: pr.2)

/-! `sendImageMessage`.  `imageUrl` stands for the object URL created
from the image blob. -/

/-- Synchronous prefix of `sendImageMessage`, up to the await on the
vision call: no prompt validation — it sets the busy flag, appends the
user message carrying the prompt and the image, appends the
`Analyzing image...` placeholder, and issues the vision request with
`conversationId || undefined` (so an empty-string token is dropped). -/
def sendImageMessageStart (imageUrl prompt : String) (s : ChatState) :
    ChatState × Nat × ApiCall :=
  let s1 := { s with isLoading := true }
  let s2 := (addMessage s1 .user prompt false (some imageUrl) none none).1
  let a3 := addMessage s2 .assistant "Analyzing image..." true none none none
  (a3.1, a3.2.id, ApiCall.vision prompt (truthyString s.conversationId))

/-- Continuation of `sendImageMessage` once the vision call settles:
same shape as the text turn, with the image fallback text in the catch
block. -/
def sendImageMessageResume (capturedMuted : Bool) (loadingId : Nat)
    (vis : Except Unit ImageAnalysisResponse) (synth : Except Unit String)
    (s : ChatState) : ChatState × List ApiCall :=
  match vis with
  | .ok r =>
    let s1 := { s with conversationId := some r.conversation_id }
    let s2 := updateMessage s1 loadingId ⟨some r.analysis, some false, none, some true⟩
    let pr := playTextAsAudioRun capturedMuted r.analysis (some loadingId) synth s2
    ({ pr.1 with isLoading := false }, pr.2)
  | .error _ =>
    let s1 := (addMessage s .assistant imageErrorFallback false none none none).1
    ({ s1 with isLoading := false }, [])

/-- One `sendImageMessage` turn run to completion with no other user
action interleaved. -/
def sendImageMessageRun (imageUrl prompt : String)
    (vis : Except Unit ImageAnalysisResponse) (synth : Except Unit String)
    (s : ChatState) : ChatState × List ApiCall :=
  let st := sendImageMessageStart imageUrl prompt s
  let pr := sendImageMessageResume s.isMuted st.2.1 vis synth st.1
  (pr.1, st.2.2 :: pr.2)

/-! Primitive store events.  Every write any async step of any turn
performs on the message log is one of the two `setMessages` shapes of
the source — `addMessage`'s append or `updateMessage`'s in-place map —
so an arbitrary interleaving of turn steps acts on the log as a list of
these events. -/

/-- One primitive write to the message log. -/
inductive StoreOp where
  | add (role : MessageRole) (content : String) (isLoading : Bool)
      (imageUrl audioUrl : Option String) (audioLoading : Option Bool)
  | update (id : Nat) (u : MessageUpdate)
deriving DecidableEq, Repr

/-- Apply one store event. -/
def applyOp (s : ChatState) : StoreOp → ChatState
  | .add r c l iu au al => (addMessage s r c l iu au al).1
  | .update id u => updateMessage s id u

/-- Apply a sequence of store events in order. -/
def applyOps (s : ChatState) (ops : List StoreOp) : ChatState :=
  ops.foldl applyOp s

/-- Number of appends in a sequence of store events. -/
def numAdds : List StoreOp → Nat
  | [] => 0
  | .add _ _ _ _ _ _ :: rest => numAdds rest + 1
  | .update _ _ :: rest => numAdds rest

/-- The ids `addMessage` hands out: `count` consecutive values starting
at `start`. -/
def idsFrom (start : Nat) : Nat → List Nat
  | 0 => []
  | count + 1 => start :: idsFrom (start + 1) count

/-- Merging a partial update never touches the id field. -/
theorem applyUpdate_id (m : Message) (u : MessageUpdate) :
    (applyUpdate m u).id = m.id := rfl

/-- `updateMessage` leaves the sequence of message ids untouched: it
patches in place, never reorders, and never rewrites an id. -/
theorem updateMessage_map_id (s : ChatState) (id : Nat) (u : MessageUpdate) :
    (updateMessage s id u).messages.map Message.id = s.messages.map Message.id := by
  unfold updateMessage
  induction s.messages with
  | nil => rfl
  | cons m rest ih =>
    simp only [List.map_cons, List.map] at *
    by_cases h : m.id = id
    · simp [h, applyUpdate_id, ih]
    · simp [h, ih]

/-- `updateMessage` changes neither the counter nor any non-message
field. -/
theorem updateMessage_nextId (s : ChatState) (id : Nat) (u : MessageUpdate) :
    (updateMessage s id u).nextId = s.nextId := rfl

/-- Any sequence of store events leaves the id sequence of the log equal
to the prior ids followed by the freshly handed-out ids in append order:
the view order is the append order no matter how appends and in-place
patches interleave. -/
theorem applyOps_map_id (ops : List StoreOp) (s : ChatState) :
    (applyOps s ops).messages.map Message.id
      = s.messages.map Message.id ++ idsFrom s.nextId (numAdds ops) := by
  induction ops generalizing s with
  | nil => simp [applyOps, idsFrom, numAdds]
  | cons op rest ih =>
    have hstep : applyOps s (op :: rest) = applyOps (applyOp s op) rest := rfl
    rw [hstep]
    cases op with
    | add r c l iu au al =>
      rw [ih]
      simp [applyOp, addMessage, numAdds, idsFrom, List.append_assoc]
    | update id u =>
      rw [ih]
      have h1 : (applyOp s (.update id u)).messages.map Message.id
          = s.messages.map Message.id := updateMessage_map_id s id u
      have h2 : (applyOp s (.update id u)).nextId = s.nextId := rfl
      rw [h1, h2]
      rfl

/-- A message list whose ids all differ from `id` passes through the
patching map unchanged. -/
theorem map_update_of_ne (l : List Message) (id : Nat) (u : MessageUpdate)
    (h : ∀ m ∈ l, m.id ≠ id) :
    (l.map fun m => if m.id = id then applyUpdate m u else m) = l := by
  induction l with
  | nil => rfl
  | cons m rest ih =>
    have hm : m.id ≠ id := h m (List.mem_cons_self m rest)
    simp only [List.map_cons, if_neg hm]
    rw [ih fun m hmem => h m (List.mem_cons_of_mem _ hmem)]

/-- States whose log only holds ids below the counter — every state the
provider actually reaches, since `addMessage` hands out the counter and
bumps it. -/
def FreshIds (s : ChatState) : Prop :=
  ∀ m ∈ s.messages, m.id < s.nextId

instance (s : ChatState) : Decidable (FreshIds s) := by
  unfold FreshIds
  infer_instance

/-- A list maps to itself under a function that fixes each element. -/
theorem map_eq_self (l : List Message) (f : Message → Message)
    (h : ∀ m ∈ l, f m = m) : l.map f = l := by
  induction l with
  | nil => rfl
  | cons m rest ih =>
    rw [List.map_cons, h m (List.mem_cons_self m rest),
      ih fun m hmem => h m (List.mem_cons_of_mem _ hmem)]

/-! ### Claim theorems -/

/-- C10: dispatching a blank (empty or whitespace-only) text is a
synchronous no-op — the run returns with the state untouched and no
collaborator call, and already the synchronous prefix rejects the input
before the busy flag or the log is touched. -/
theorem C10_blank_text_noop (s : ChatState) (text : String)
    (gen : Except Unit ChatResponse) (synth : Except Unit String)
    (h : isBlank text = true) :
    sendTextMessageRun text gen synth s = (s, [])
      ∧ sendTextMessageStart text s = none := by
  unfold sendTextMessageRun sendTextMessageStart
  simp [h]

/-- Witness for C10 at the whitespace-only input "  ". -/
theorem C10_blank_text_noop_witness :
    isBlank "  " = true
      ∧ (sendTextMessageRun "  " (.error ()) (.error ()) initialState
            = (initialState, [])
          ∧ sendTextMessageStart "  " initialState = none) :=
  ⟨by decide,
    C10_blank_text_noop initialState "  " (.error ()) (.error ()) (by decide)⟩

/-- C7: under any sequence of store events — appends and in-place
patches in any interleaving, hence whatever the completion order of the
async steps issuing them — the view's id sequence is the prior ids
followed by the appended ids in append order; and a single patch leaves
the id sequence (and so every message's id and position) unchanged. -/
theorem C7_append_order_stable_ids (s : ChatState) (ops : List StoreOp)
    (id : Nat) (u : MessageUpdate) :
    (applyOps s ops).messages.map Message.id
        = s.messages.map Message.id ++ idsFrom s.nextId (numAdds ops)
      ∧ (updateMessage s id u).messages.map Message.id
        = s.messages.map Message.id :=
  ⟨applyOps_map_id ops s, updateMessage_map_id s id u⟩

/-- C4 counterexample: a text turn whose generation call fails leaves
the `Thinking...` placeholder unpatched (still in its loading state) and
appends a third, fresh assistant message carrying the fallback text —
the claim's patch-in-place with no extra append does not happen. -/
theorem C4_counterexample :
    (sendTextMessageRun "hi" (.error ()) (.error ()) initialState).1.messages
      = [⟨0, .user, "hi", false, none, none, none⟩,
         ⟨1, .assistant, "Thinking...", true, none, none, some false⟩,
         ⟨2, .assistant, textErrorFallback, false, none, none, none⟩] := by decide

/-- C4 amended: when the generation call fails, the assistant
placeholder is not patched — it keeps its interim text and loading
state — and a new assistant message with the fixed fallback text is
appended after it; the busy flag is released, and the only request
issued is the chat call. -/
theorem C4_generation_failure (s : ChatState) (text : String)
    (synth : Except Unit String) (h : isBlank text = false) :
    (sendTextMessageRun text (.error ()) synth s).1.messages
        = s.messages
          ++ [⟨s.nextId, .user, text, false, none, none, none⟩,
              ⟨s.nextId + 1, .assistant, "Thinking...", true, none, none, some false⟩,
              ⟨s.nextId + 2, .assistant, textErrorFallback, false, none, none, none⟩]
      ∧ (sendTextMessageRun text (.error ()) synth s).1.isLoading = false
      ∧ (sendTextMessageRun text (.error ()) synth s).2
        = [ApiCall.chat text s.conversationId] := by
  unfold sendTextMessageRun sendTextMessageStart sendTextMessageResume addMessage
  simp [h, List.append_assoc]

/-- Witness for C4 amended at the input "hi" from the initial state. -/
theorem C4_generation_failure_witness :
    isBlank "hi" = false
      ∧ ((sendTextMessageRun "hi" (.error ()) (.error ()) initialState).1.messages
            = initialState.messages
              ++ [⟨0, .user, "hi", false, none, none, none⟩,
                  ⟨1, .assistant, "Thinking...", true, none, none, some false⟩,
                  ⟨2, .assistant, textErrorFallback, false, none, none, none⟩]
          ∧ (sendTextMessageRun "hi" (.error ()) (.error ()) initialState).1.isLoading
            = false
          ∧ (sendTextMessageRun "hi" (.error ()) (.error ()) initialState).2
            = [ApiCall.chat "hi" initialState.conversationId]) :=
  ⟨by decide, C4_generation_failure initialState "hi" (.error ()) (by decide)⟩

/-- C3 counterexample: an image dispatch with the empty prompt is not
rejected — its synchronous prefix alone already sets the busy flag,
appends the user message (with the empty prompt) and the placeholder,
and issues the vision request carrying the empty prompt. -/
theorem C3_counterexample :
    sendImageMessageStart "blob:img" "" initialState
      = ({ messages :=
             [⟨0, .user, "", false, some "blob:img", none, none⟩,
              ⟨1, .assistant, "Analyzing image...", true, none, none, none⟩],
           conversationId := none, isLoading := true, isMuted := false,
           audioPlaying := false, audioSrc := none, nextId := 2 },
         1, ApiCall.vision "" none) := by decide

/-- C3 amended: a blank prompt is not validated: the dispatch proceeds
exactly like any other image dispatch — the busy flag is set, a user
message carrying the blank prompt and the image and an assistant
placeholder are appended, and the vision collaborator is invoked with
the blank prompt before any reply arrives. -/
theorem C3_blank_prompt_not_rejected (s : ChatState) (imageUrl prompt : String)
    (h : isBlank prompt = true) :
    sendImageMessageStart imageUrl prompt s
      = ({ s with
            isLoading := true
            messages := s.messages
              ++ [⟨s.nextId, .user, prompt, false, some imageUrl, none, none⟩,
                  ⟨s.nextId + 1, .assistant, "Analyzing image...", true, none, none, none⟩]
            nextId := s.nextId + 2 },
          s.nextId + 1, ApiCall.vision prompt (truthyString s.conversationId)) := by
  unfold sendImageMessageStart addMessage
  simp [List.append_assoc]

/-- Witness for C3 amended at the empty prompt from the initial state. -/
theorem C3_blank_prompt_not_rejected_witness :
    isBlank "" = true
      ∧ sendImageMessageStart "blob:i" "" initialState
        = ({ initialState with
              isLoading := true
              messages := initialState.messages
                ++ [⟨0, .user, "", false, some "blob:i", none, none⟩,
                    ⟨1, .assistant, "Analyzing image...", true, none, none, none⟩]
              nextId := 2 },
            1, ApiCall.vision "" (truthyString initialState.conversationId)) :=
  ⟨by decide, C3_blank_prompt_not_rejected initialState "blob:i" "" (by decide)⟩

/-- C1 counterexample: dispatching "a" leaves the busy flag set while
the chat call is in flight, yet dispatching "b" in that very state is
not a no-op — it appends two more messages (four in all) and issues its
own chat request. -/
theorem C1_counterexample :
    ((sendTextMessageStart "a" initialState).map fun r => r.1.isLoading)
        = some true
      ∧ (((sendTextMessageStart "a" initialState).bind
            fun r => sendTextMessageStart "b" r.1).map
          fun r => (r.1.messages.length, r.2.2))
        = some (4, ApiCall.chat "b" none) := by decide

/-- C1 amended: none of the dispatch operations consults the busy flag:
a dispatch made while a prior turn is in flight proceeds — it appends
its user message and placeholder and issues its collaborator request,
so both turns run. -/
theorem C1_no_busy_rejection (s : ChatState)
    (text audioUrl imageUrl prompt : String)
    (hbusy : s.isLoading = true) (htext : isBlank text = false) :
    (∃ r, sendTextMessageStart text s = some r
        ∧ r.1.messages.length = s.messages.length + 2
        ∧ r.1.isLoading = true
        ∧ r.2.2 = ApiCall.chat text s.conversationId)
      ∧ ((sendAudioMessageStart audioUrl s).1.messages.length
            = s.messages.length + 2
          ∧ (sendAudioMessageStart audioUrl s).1.isLoading = true)
      ∧ ((sendImageMessageStart imageUrl prompt s).1.messages.length
            = s.messages.length + 2
          ∧ (sendImageMessageStart imageUrl prompt s).1.isLoading = true) := by
  have hst : sendTextMessageStart text s
      = some ({ s with
            isLoading := true
            messages := s.messages
              ++ [⟨s.nextId, .user, text, false, none, none, none⟩,
                  ⟨s.nextId + 1, .assistant, "Thinking...", true, none, none, some false⟩]
            nextId := s.nextId + 2 },
          s.nextId + 1, ApiCall.chat text s.conversationId) := by
    simp [sendTextMessageStart, addMessage, htext, List.append_assoc]
  refine ⟨⟨_, hst, by simp, rfl, rfl⟩, ⟨?_, rfl⟩, ⟨?_, rfl⟩⟩
  · simp [sendAudioMessageStart, addMessage, List.append_assoc]
  · simp [sendImageMessageStart, addMessage, List.append_assoc]

/-- A state mid-turn: busy flag set, the in-flight turn's user message
and placeholder already appended — exactly the state after
`sendTextMessageStart "a" initialState`. -/
def busyProbe : ChatState :=
  { initialState with
    isLoading := true
    messages :=
      [⟨0, .user, "a", false, none, none, none⟩,
       ⟨1, .assistant, "Thinking...", true, none, none, some false⟩]
    nextId := 2 }

/-- Witness for C1 amended: the busy probe state (flag set, two messages
from the in-flight turn) still accepts all three dispatches. -/
theorem C1_no_busy_rejection_witness :
    busyProbe.isLoading = true
      ∧ isBlank "b" = false
      ∧ ((∃ r, sendTextMessageStart "b" busyProbe = some r
            ∧ r.1.messages.length = busyProbe.messages.length + 2
            ∧ r.1.isLoading = true
            ∧ r.2.2 = ApiCall.chat "b" busyProbe.conversationId)
          ∧ ((sendAudioMessageStart "blob:a" busyProbe).1.messages.length
                = busyProbe.messages.length + 2
              ∧ (sendAudioMessageStart "blob:a" busyProbe).1.isLoading = true)
          ∧ ((sendImageMessageStart "blob:i" "p" busyProbe).1.messages.length
                = busyProbe.messages.length + 2
              ∧ (sendImageMessageStart "blob:i" "p" busyProbe).1.isLoading = true)) :=
  ⟨rfl, by decide,
    C1_no_busy_rejection busyProbe "b" "blob:a" "blob:i" "p" rfl (by decide)⟩

/-- C2 counterexample: an audio turn whose transcription resolves with
the empty string is not failed — the chat request is issued with the
empty message, and the turn ends with the assistant placeholder holding
the generated reply, not the fallback text. -/
theorem C2_counterexample :
    (sendAudioMessageRun "blob:a" (.ok ⟨""⟩) (.ok ⟨"Reply", "c1"⟩) (.error ())
        initialState).2
      = [ApiCall.transcribe, ApiCall.chat "" none, ApiCall.synthesize "Reply"]
    ∧ (sendAudioMessageRun "blob:a" (.ok ⟨""⟩) (.ok ⟨"Reply", "c1"⟩) (.error ())
        initialState).1.messages
      = [⟨0, .user, "", false, none, some "blob:a", none⟩,
         ⟨1, .assistant, "Reply", false, none, none, some false⟩] := by decide

/-- C2 amended: an empty transcription is silently forwarded: the user
message's content is patched to the empty string, the generation
collaborator is invoked with the empty message and the dispatch-time
token, and when generation succeeds the placeholder ends with the
generated reply out of the loading state — no fallback, no failed
turn. -/
theorem C2_empty_transcription_forwarded (s : ChatState) (audioUrl : String)
    (resp : ChatResponse) (gen : Except Unit ChatResponse)
    (synth : Except Unit String) (hw : FreshIds s) (hm : s.isMuted = false) :
    (sendAudioMessageRun audioUrl (.ok ⟨""⟩) gen synth s).2.take 2
        = [ApiCall.transcribe, ApiCall.chat "" s.conversationId]
      ∧ (sendAudioMessageRun audioUrl (.ok ⟨""⟩) (.ok resp) (.error ()) s).1.messages
        = s.messages
          ++ [⟨s.nextId, .user, "", false, none, some audioUrl, none⟩,
              ⟨s.nextId + 1, .assistant, resp.response, false, none, none, some false⟩]
      ∧ (sendAudioMessageRun audioUrl (.ok ⟨""⟩) (.ok resp) (.error ()) s).1.isLoading
        = false := by
  have h01 : s.nextId ≠ s.nextId + 1 := by omega
  have h10 : s.nextId + 1 ≠ s.nextId := by omega
  refine ⟨?_, ?_, ?_⟩
  · cases gen <;>
      simp [sendAudioMessageRun, sendAudioMessageStart, sendAudioMessageResume,
        playTextAsAudioRun, playTextAsAudioStart, playTextAsAudioResume,
        addMessage, hm]
  · simp only [sendAudioMessageRun, sendAudioMessageStart, sendAudioMessageResume,
      playTextAsAudioRun, playTextAsAudioStart, playTextAsAudioResume,
      addMessage, updateMessage, applyUpdate, hm]
    simp [List.map_append, List.map_map, h01, h10]
    rw [map_eq_self]
    intro m hmem
    have hlt := hw m hmem
    have hne0 : m.id ≠ s.nextId := by omega
    have hne1 : m.id ≠ s.nextId + 1 := by omega
    simp [hne0, hne1]
  · simp [sendAudioMessageRun, sendAudioMessageStart, sendAudioMessageResume,
      playTextAsAudioRun, playTextAsAudioStart, playTextAsAudioResume,
      addMessage, updateMessage, applyUpdate, hm]

/-- Witness for C2 amended at the initial state. -/
theorem C2_empty_transcription_forwarded_witness :
    FreshIds initialState
      ∧ initialState.isMuted = false
      ∧ ((sendAudioMessageRun "blob:a" (.ok ⟨""⟩) (.error ()) (.error ())
            initialState).2.take 2
          = [ApiCall.transcribe, ApiCall.chat "" initialState.conversationId]
        ∧ (sendAudioMessageRun "blob:a" (.ok ⟨""⟩) (.ok ⟨"Reply", "c1"⟩) (.error ())
            initialState).1.messages
          = initialState.messages
            ++ [⟨0, .user, "", false, none, some "blob:a", none⟩,
                ⟨1, .assistant, "Reply", false, none, none, some false⟩]
        ∧ (sendAudioMessageRun "blob:a" (.ok ⟨""⟩) (.ok ⟨"Reply", "c1"⟩) (.error ())
            initialState).1.isLoading = false) :=
  ⟨by decide, rfl,
    C2_empty_transcription_forwarded initialState "blob:a" ⟨"Reply", "c1"⟩
      (.error ()) (.error ()) (by decide) rfl⟩

/-- C9: when generation succeeds and the synthesis call then fails, the
failure is non-fatal: the assistant placeholder keeps the generated
content out of the loading state, ends with no audio attached and not
loading audio, no extra message appears, the busy flag is released, the
synthesis request was really issued, and no playback starts. -/
theorem C9_synthesis_failure_nonfatal (s : ChatState) (text : String)
    (resp : ChatResponse) (hw : FreshIds s) (hm : s.isMuted = false)
    (ht : isBlank text = false) :
    (sendTextMessageRun text (.ok resp) (.error ()) s).1.messages
        = s.messages
          ++ [⟨s.nextId, .user, text, false, none, none, none⟩,
              ⟨s.nextId + 1, .assistant, resp.response, false, none, none, some false⟩]
      ∧ (sendTextMessageRun text (.ok resp) (.error ()) s).1.isLoading = false
      ∧ (sendTextMessageRun text (.ok resp) (.error ()) s).2
        = [ApiCall.chat text s.conversationId, ApiCall.synthesize resp.response]
      ∧ (sendTextMessageRun text (.ok resp) (.error ()) s).1.audioPlaying
        = s.audioPlaying := by
  have h01 : s.nextId ≠ s.nextId + 1 := by omega
  have h10 : s.nextId + 1 ≠ s.nextId := by omega
  refine ⟨?_, ?_, ?_, ?_⟩
  · simp only [sendTextMessageRun, sendTextMessageStart, sendTextMessageResume,
      playTextAsAudioRun, playTextAsAudioStart, playTextAsAudioResume,
      addMessage, updateMessage, applyUpdate, ht, hm]
    simp [List.map_append, List.map_map, h01, h10, ht]
    rw [map_eq_self]
    intro m hmem
    have hlt := hw m hmem
    have hne0 : m.id ≠ s.nextId := by omega
    have hne1 : m.id ≠ s.nextId + 1 := by omega
    simp [hne0, hne1]
  all_goals
    simp [sendTextMessageRun, sendTextMessageStart, sendTextMessageResume,
      playTextAsAudioRun, playTextAsAudioStart, playTextAsAudioResume,
      addMessage, updateMessage, applyUpdate, ht, hm]

/-- Witness for C9 at the input "hi" from the initial state. -/
theorem C9_synthesis_failure_nonfatal_witness :
    FreshIds initialState
      ∧ initialState.isMuted = false
      ∧ isBlank "hi" = false
      ∧ ((sendTextMessageRun "hi" (.ok ⟨"Reply", "c1"⟩) (.error ())
            initialState).1.messages
          = initialState.messages
            ++ [⟨0, .user, "hi", false, none, none, none⟩,
                ⟨1, .assistant, "Reply", false, none, none, some false⟩]
        ∧ (sendTextMessageRun "hi" (.ok ⟨"Reply", "c1"⟩) (.error ())
            initialState).1.isLoading = false
        ∧ (sendTextMessageRun "hi" (.ok ⟨"Reply", "c1"⟩) (.error ())
            initialState).2
          = [ApiCall.chat "hi" initialState.conversationId,
             ApiCall.synthesize "Reply"]
        ∧ (sendTextMessageRun "hi" (.ok ⟨"Reply", "c1"⟩) (.error ())
            initialState).1.audioPlaying = initialState.audioPlaying) :=
  ⟨by decide, rfl, by decide,
    C9_synthesis_failure_nonfatal initialState "hi" ⟨"Reply", "c1"⟩
      (by decide) rfl (by decide)⟩

/-- C6 counterexample: a server response can carry the empty string as
its token; it is then bound (the identity is no longer absent), yet the
very next vision request carries no token at all — the bound value is
not sent unchanged on every subsequent outbound request. -/
theorem C6_counterexample :
    (sendTextMessageRun "hi" (.ok ⟨"Reply", ""⟩) (.error ())
        initialState).1.conversationId = some ""
      ∧ (sendImageMessageStart "blob:i" "p"
          (sendTextMessageRun "hi" (.ok ⟨"Reply", ""⟩) (.error ())
            initialState).1).2.2
        = ApiCall.vision "p" none := by decide

/-- C6 amended: the token is absent until the first successful response
and unchanged by a failed turn; every generation request (text or audio
turn) carries the current token unchanged, and every vision request
carries it unless it is the empty string, which JavaScript truthiness
drops; a successful response's token always overwrites the bound one
(latest wins); `clearConversation` resets it to absent. -/
theorem C6_token_lifecycle (s : ChatState) (text audioUrl imageUrl prompt : String)
    (t : TranscriptionResponse) (resp : ChatResponse)
    (synth synth' : Except Unit String) (ht : isBlank text = false) :
    ((sendTextMessageStart text s).map fun r => r.2.2)
        = some (ApiCall.chat text s.conversationId)
      ∧ (sendAudioMessageRun audioUrl (.ok t) (.error ()) synth' s).2
        = [ApiCall.transcribe, ApiCall.chat t.transcription s.conversationId]
      ∧ (sendImageMessageStart imageUrl prompt s).2.2
        = ApiCall.vision prompt (truthyString s.conversationId)
      ∧ (sendTextMessageRun text (.ok resp) synth s).1.conversationId
        = some resp.conversation_id
      ∧ (sendTextMessageRun text (.error ()) synth s).1.conversationId
        = s.conversationId
      ∧ initialState.conversationId = none
      ∧ (clearConversation s).conversationId = none := by
  refine ⟨?_, ?_, ?_, ?_, ?_, rfl, rfl⟩
  · simp [sendTextMessageStart, addMessage, ht]
  · simp [sendAudioMessageRun, sendAudioMessageStart, sendAudioMessageResume,
      addMessage, updateMessage]
  · simp [sendImageMessageStart, addMessage]
  · cases synth <;>
      cases hmu : s.isMuted <;>
        simp [sendTextMessageRun, sendTextMessageStart, sendTextMessageResume,
          playTextAsAudioRun, playTextAsAudioStart, playTextAsAudioResume,
          addMessage, updateMessage, ht, hmu]
  · simp [sendTextMessageRun, sendTextMessageStart, sendTextMessageResume,
      addMessage, ht]

/-- Witness for C6 amended at a state holding the bound token "c0". -/
theorem C6_token_lifecycle_witness :
    isBlank "hi" = false
      ∧ (((sendTextMessageStart "hi" { initialState with conversationId := some "c0" }).map
            fun r => r.2.2)
          = some (ApiCall.chat "hi"
              ({ initialState with conversationId := some "c0" } : ChatState).conversationId)
        ∧ (sendAudioMessageRun "blob:a" (.ok ⟨"yo"⟩) (.error ()) (.error ())
            { initialState with conversationId := some "c0" }).2
          = [ApiCall.transcribe, ApiCall.chat "yo"
              ({ initialState with conversationId := some "c0" } : ChatState).conversationId]
        ∧ (sendImageMessageStart "blob:i" "p"
            { initialState with conversationId := some "c0" }).2.2
          = ApiCall.vision "p"
              (truthyString
                ({ initialState with conversationId := some "c0" } : ChatState).conversationId)
        ∧ (sendTextMessageRun "hi" (.ok ⟨"Reply", "c1"⟩) (.error ())
            { initialState with conversationId := some "c0" }).1.conversationId
          = some "c1"
        ∧ (sendTextMessageRun "hi" (.error ()) (.error ())
            { initialState with conversationId := some "c0" }).1.conversationId
          = ({ initialState with conversationId := some "c0" } : ChatState).conversationId
        ∧ initialState.conversationId = none
        ∧ (clearConversation
            { initialState with conversationId := some "c0" }).conversationId = none) :=
  ⟨by decide,
    C6_token_lifecycle { initialState with conversationId := some "c0" }
      "hi" "blob:a" "blob:i" "p" ⟨"yo"⟩ ⟨"Reply", "c1"⟩ (.error ()) (.error ())
      (by decide)⟩

/-- C5 counterexample: a synthesis request issued while unmuted is in
flight; the user mutes; when the request resolves, the resumed closure
still reads the captured pre-mute flag and starts playback — audio
plays although the session is muted. -/
theorem C5_counterexample :
    playTextAsAudioStart false "hello" none initialState
        = some (initialState, ApiCall.synthesize "hello")
      ∧ (toggleMute initialState).isMuted = true
      ∧ (playTextAsAudioResume false none (.ok "blob:s")
          (toggleMute initialState)).isMuted = true
      ∧ (playTextAsAudioResume false none (.ok "blob:s")
          (toggleMute initialState)).audioPlaying = true := by decide

/-- C5 amended: muting stops playback in progress, and a playTextAsAudio
call made after the mute (its closure captures the muted flag) is a
no-op — no synthesis request, no playback; but a synthesis in flight at
the moment of muting still auto-plays on success, because its resumed
closure reads the mute value captured before the mute. -/
theorem C5_mute_behavior (s s' : ChatState) (text url : String)
    (mid : Option Nat) (hmut : s.isMuted = false) (hplay : s.audioPlaying = true)
    (hmut' : s'.isMuted = true) :
    ((toggleMute s).isMuted = true ∧ (toggleMute s).audioPlaying = false)
      ∧ playTextAsAudioStart true text mid s' = none
      ∧ ((playTextAsAudioResume false mid (.ok url) s').audioPlaying = true
          ∧ (playTextAsAudioResume false mid (.ok url) s').isMuted = true) := by
  refine ⟨⟨?_, ?_⟩, ?_, ?_, ?_⟩
  · simp [toggleMute, stopAudio, hmut, hplay]
  · simp [toggleMute, stopAudio, hmut, hplay]
  · simp [playTextAsAudioStart]
  · cases mid <;> simp [playTextAsAudioResume, updateMessage]
  · cases mid <;> simp [playTextAsAudioResume, updateMessage, hmut']

/-- Witness for C5 amended: an unmuted playing state, and the muted
state reached by toggling from the initial state. -/
theorem C5_mute_behavior_witness :
    ({ initialState with audioPlaying := true } : ChatState).isMuted = false
      ∧ ({ initialState with audioPlaying := true } : ChatState).audioPlaying = true
      ∧ (toggleMute initialState).isMuted = true
      ∧ (((toggleMute { initialState with audioPlaying := true }).isMuted = true
            ∧ (toggleMute { initialState with audioPlaying := true }).audioPlaying = false)
          ∧ playTextAsAudioStart true "hello" none (toggleMute initialState) = none
          ∧ ((playTextAsAudioResume false none (.ok "blob:s")
                (toggleMute initialState)).audioPlaying = true
              ∧ (playTextAsAudioResume false none (.ok "blob:s")
                (toggleMute initialState)).isMuted = true)) :=
  ⟨rfl, rfl, by decide,
    C5_mute_behavior { initialState with audioPlaying := true }
      (toggleMute initialState) "hello" "blob:s" none rfl rfl (by decide)⟩

/-- Everything of a message except its generated id: what a turn's
behavior looks like to an observer who does not inspect the opaque
ids. -/
def messageBody (m : Message) :
    MessageRole × String × Bool × Option String × Option String × Option Bool :=
  (m.role, m.content, m.isLoading, m.imageUrl, m.audioUrl, m.audioLoading)

/-- C8: clearing yields an empty view and an absent token and halts
playback; a text dispatch right after the clear issues exactly the
requests of a first-ever turn — its chat request carries no token — and
produces, for every outcome of the collaborators, messages identical
(up to the opaque ids) to those of a first-ever turn in a fresh session
with the same mute setting. -/
theorem C8_clear_then_first_turn (s : ChatState) (text : String)
    (gen : Except Unit ChatResponse) (synth : Except Unit String)
    (ht : isBlank text = false) :
    (clearConversation s).messages = []
      ∧ (clearConversation s).conversationId = none
      ∧ (clearConversation s).audioPlaying = false
      ∧ (sendTextMessageRun text gen synth (clearConversation s)).2
        = (sendTextMessageRun text gen synth
            { initialState with isMuted := s.isMuted }).2
      ∧ ((sendTextMessageStart text (clearConversation s)).map fun r => r.2.2)
        = some (ApiCall.chat text none)
      ∧ (sendTextMessageRun text gen synth (clearConversation s)).1.messages.map
          messageBody
        = (sendTextMessageRun text gen synth
            { initialState with isMuted := s.isMuted }).1.messages.map messageBody := by
  refine ⟨rfl, rfl, rfl, ?_, ?_, ?_⟩
  · cases gen <;>
      cases synth <;>
        cases hmu : s.isMuted <;>
          simp [sendTextMessageRun, sendTextMessageStart, sendTextMessageResume,
            playTextAsAudioRun, playTextAsAudioStart, playTextAsAudioResume,
            addMessage, updateMessage, applyUpdate, clearConversation, stopAudio,
            initialState, ht, hmu]
  · simp [sendTextMessageStart, addMessage, clearConversation, stopAudio, ht]
  · cases gen <;>
      cases synth <;>
        cases hmu : s.isMuted <;>
          simp [sendTextMessageRun, sendTextMessageStart, sendTextMessageResume,
            playTextAsAudioRun, playTextAsAudioStart, playTextAsAudioResume,
            addMessage, updateMessage, applyUpdate, clearConversation, stopAudio,
            initialState, messageBody, ht, hmu]

/-- Witness for C8 at a populated session that is cleared and then
dispatches "hi" with a successful generation and synthesis. -/
theorem C8_clear_then_first_turn_witness :
    isBlank "hi" = false
      ∧ ((clearConversation busyProbe).messages = []
        ∧ (clearConversation busyProbe).conversationId = none
        ∧ (clearConversation busyProbe).audioPlaying = false
        ∧ (sendTextMessageRun "hi" (.ok ⟨"Reply", "c1"⟩) (.ok "blob:s")
            (clearConversation busyProbe)).2
          = (sendTextMessageRun "hi" (.ok ⟨"Reply", "c1"⟩) (.ok "blob:s")
              { initialState with isMuted := busyProbe.isMuted }).2
        ∧ ((sendTextMessageStart "hi" (clearConversation busyProbe)).map
            fun r => r.2.2)
          = some (ApiCall.chat "hi" none)
        ∧ (sendTextMessageRun "hi" (.ok ⟨"Reply", "c1"⟩) (.ok "blob:s")
            (clearConversation busyProbe)).1.messages.map messageBody
          = (sendTextMessageRun "hi" (.ok ⟨"Reply", "c1"⟩) (.ok "blob:s")
              { initialState with isMuted := busyProbe.isMuted }).1.messages.map
              messageBody) :=
  ⟨by decide,
    C8_clear_then_first_turn busyProbe "hi" (.ok ⟨"Reply", "c1"⟩) (.ok "blob:s")
      (by decide)⟩

end LlamaCure
